import Mathlib

/-!
Verification of the Transaction Ledger & Synchronization Core of the
p2p-transaction-relayer service.

The Rust sources are embedded shallowly:

* `Transaction`, `TxEndpoint` and `TxEndpoint.process_transaction` come from
  src/ws-tx-endpoint/src/tx-endpoint.rs (tx-endpoint-v2 ships a byte-identical
  copy of the ledger).  Rust `f64` money amounts are modelled as `ℚ`; the
  claims under study only involve exact decimal arithmetic far from any
  floating-point rounding boundary.
* `SignalingMessage`, `WsAppState.handle_signaling_message` and the v2
  counterparts come from src/ws-tx-endpoint/src/lib.rs and
  src/tx-endpoint-v2/src/lib.rs.
* `WebSocketConnection` and its `send_transaction` come from
  src/ws-tx-endpoint/src/ws-connection.rs.
* `Record`, `EndpointStats` and the two statistics folds come from
  src/api-gateway/src/main.rs (`get_stats`, `get_endpoint_stats`).

Mutation of `&mut self` is modelled by returning the updated value; a Rust
`Result<(), E>` on `&mut self` becomes `Except E` carrying the updated state,
with the convention that an `error` result leaves the receiver unchanged
(which is what the Rust code does: it returns `Err` before any mutation).
-/

/-- Transaction record (src/ws-tx-endpoint/src/lib.rs, struct `Transaction`).
`from` and `to` are Lean keywords, hence the guillemets. -/
structure Transaction where
  id : String
  «from» : String
  «to» : String
  amount : ℚ
  timestamp : Nat
  signature : String
  status : String
deriving Repr, DecidableEq

/-- Endpoint ledger (src/ws-tx-endpoint/src/tx-endpoint.rs, struct
`TxEndpoint`).  Note the source has no `applied_ids` replay-tracking field. -/
structure TxEndpoint where
  id : String
  balance : ℚ
  transaction_count : Nat
deriving Repr, DecidableEq

/-- Constructor `TxEndpoint::new`: starting balance 1000.0, zero count. -/
def TxEndpoint.new (id : String) : TxEndpoint :=
  { id := id, balance := 1000, transaction_count := 0 }

/-- Method `TxEndpoint::process_transaction` (tx-endpoint.rs lines 20-32).
The unconditional `self.transaction_count += 1;` of line 30 runs on every
path that reaches `Ok(())`, so it is folded into each non-error branch. -/
def TxEndpoint.process_transaction (ep : TxEndpoint) (tx : Transaction) :
    Except String TxEndpoint :=
  if tx.«from» = ep.id then
    if ep.balance < tx.amount then
      Except.error "Insufficient balance"
    else
      Except.ok { ep with balance := ep.balance - tx.amount,
                          transaction_count := ep.transaction_count + 1 }
  else if tx.«to» = ep.id then
    Except.ok { ep with balance := ep.balance + tx.amount,
                        transaction_count := ep.transaction_count + 1 }
  else
    Except.ok { ep with transaction_count := ep.transaction_count + 1 }

/-- The calling convention used throughout lib.rs:
`let _ = ep.process_transaction(&tx);` — the error is discarded and the
ledger keeps its prior state (the Rust method returns `Err` before any
mutation).  This is the spec's `apply` operation as the code realises it. -/
def TxEndpoint.apply (ep : TxEndpoint) (tx : Transaction) : TxEndpoint :=
  match ep.process_transaction tx with
  | Except.ok ep' => ep'
  | Except.error _ => ep

/-- Applying a whole sequence of transactions in order. -/
def TxEndpoint.applyAll (ep : TxEndpoint) (txs : List Transaction) : TxEndpoint :=
  txs.foldl TxEndpoint.apply ep

/-- The debit guard of `process_transaction` passes: the transaction does not
hit the `Insufficient balance` early return on this ledger. -/
def CanApply (ep : TxEndpoint) (tx : Transaction) : Prop :=
  tx.«from» = ep.id → tx.amount ≤ ep.balance

instance (ep : TxEndpoint) (tx : Transaction) : Decidable (CanApply ep tx) := by
  unfold CanApply; infer_instance

/-- Every step of a left-to-right application run passes the debit guard. -/
def AllApplicable : TxEndpoint → List Transaction → Prop
  | _, [] => True
  | ep, tx :: rest => CanApply ep tx ∧ AllApplicable (ep.apply tx) rest

instance instDecidableAllApplicable :
    (ep : TxEndpoint) → (txs : List Transaction) → Decidable (AllApplicable ep txs)
  | _, [] => Decidable.isTrue trivial
  | ep, tx :: rest =>
    have : Decidable (AllApplicable (ep.apply tx) rest) :=
      instDecidableAllApplicable (ep.apply tx) rest
    inferInstanceAs (Decidable (_ ∧ _))

/-- The signed balance effect `process_transaction` has on the ledger of
endpoint `i` when the debit guard passes: the debit branch wins (also when
`from = to`), then the credit branch, else no effect. -/
def delta (i : String) (tx : Transaction) : ℚ :=
  if tx.«from» = i then -tx.amount else if tx.«to» = i then tx.amount else 0

theorem apply_id (ep : TxEndpoint) (tx : Transaction) : (ep.apply tx).id = ep.id := by
  unfold TxEndpoint.apply TxEndpoint.process_transaction
  split_ifs <;> rfl

theorem apply_balance_of_canApply (ep : TxEndpoint) (tx : Transaction)
    (h : CanApply ep tx) : (ep.apply tx).balance = ep.balance + delta ep.id tx := by
  unfold TxEndpoint.apply TxEndpoint.process_transaction delta
  split_ifs with h1 h2 h3
  · exact absurd (h h1) (not_le.mpr h2)
  · show ep.balance - tx.amount = ep.balance + -tx.amount
    ring
  · show ep.balance + tx.amount = ep.balance + tx.amount
    rfl
  · show ep.balance = ep.balance + 0
    ring

theorem applyAll_balance (txs : List Transaction) (ep : TxEndpoint)
    (h : AllApplicable ep txs) :
    (ep.applyAll txs).balance = ep.balance + (txs.map (delta ep.id)).sum := by
  induction txs generalizing ep with
  | nil => simp [TxEndpoint.applyAll]
  | cons tx rest ih =>
    obtain ⟨h1, h2⟩ := h
    have hb := apply_balance_of_canApply ep tx h1
    have hid := apply_id ep tx
    have := ih (ep.apply tx) h2
    simp only [TxEndpoint.applyAll, List.foldl_cons] at this ⊢
    rw [this, hid, hb, List.map_cons, List.sum_cons]
    ring

/-- Pointwise rewriting of the per-ledger balance effect as a credit-if
minus a debit-if, valid when the transaction is not a self-transfer. -/
theorem delta_eq_sub (tx : Transaction) (hne : tx.«from» ≠ tx.«to») (i : String) :
    delta i tx = (if tx.«to» = i then tx.amount else 0)
      - (if tx.«from» = i then tx.amount else 0) := by
  unfold delta
  by_cases h1 : tx.«from» = i
  · have h2 : ¬ tx.«to» = i := fun h => hne (h1.trans h.symm)
    simp only [if_pos h1, if_neg h2]
    ring
  · by_cases h2 : tx.«to» = i
    · simp only [if_neg h1, if_pos h2]
      ring
    · simp only [if_neg h1, if_neg h2]
      ring

/-- Summed over a closed set of endpoints holding both parties, a
non-self transaction has zero aggregate balance effect. -/
theorem sum_delta_zero (s : Finset String) (tx : Transaction)
    (hf : tx.«from» ∈ s) (ht : tx.«to» ∈ s) (hne : tx.«from» ≠ tx.«to») :
    ∑ i in s, delta i tx = 0 := by
  calc ∑ i in s, delta i tx
      = ∑ i in s, ((if tx.«to» = i then tx.amount else 0)
          - (if tx.«from» = i then tx.amount else 0)) :=
        Finset.sum_congr rfl fun i _ => delta_eq_sub tx hne i
    _ = (∑ i in s, if tx.«to» = i then tx.amount else 0)
          - ∑ i in s, if tx.«from» = i then tx.amount else 0 :=
        Finset.sum_sub_distrib
    _ = tx.amount - tx.amount := by
        rw [Finset.sum_ite_eq, Finset.sum_ite_eq, if_pos ht, if_pos hf]
    _ = 0 := sub_self _

/-- Exchanging a Finset sum with a list sum. -/
theorem sum_list_sum_swap (s : Finset String) (txs : List Transaction)
    (f : String → Transaction → ℚ) :
    ∑ i in s, (txs.map (f i)).sum = (txs.map fun tx => ∑ i in s, f i tx).sum := by
  induction txs with
  | nil => simp
  | cons tx rest ih => simp [List.map_cons, List.sum_cons, Finset.sum_add_distrib, ih]

/-- A concrete broadcast transaction: 150.0 from endpoint A to endpoint B. -/
def txB : Transaction :=
  { id := "tx-0001", «from» := "A", «to» := "B", amount := 150,
    timestamp := 0, signature := "sig_0", status := "pending" }

/-- A concrete self-transfer: 100.0 from endpoint A to itself. -/
def txSelf : Transaction :=
  { id := "tx-self", «from» := "A", «to» := "A", amount := 100,
    timestamp := 0, signature := "sig_0", status := "pending" }

/-- A concrete transfer exceeding the sender's starting balance. -/
def txBig : Transaction :=
  { id := "tx-big", «from» := "A", «to» := "B", amount := 2000,
    timestamp := 0, signature := "sig_0", status := "pending" }

/-- C2 counterexample: balance conservation fails as stated.  First input: a
transfer of 2000.0 from A to B over the closed set A, B — the sender's debit
fails with insufficient balance, yet the receiver still credits, and 4000.0 of
total balance comes out of 2000.0.  Second input: a self-transfer of 100.0 over
the closed set containing only A — the debit branch runs and the credit branch
is skipped by the `else if`, destroying 100.0 of value. -/
theorem conservation_fails_as_stated :
    (∑ i in ({"A", "B"} : Finset String),
        ((TxEndpoint.new i).applyAll [txBig]).balance)
      ≠ ∑ i in ({"A", "B"} : Finset String), (TxEndpoint.new i).balance
    ∧ (∑ i in ({"A"} : Finset String),
        ((TxEndpoint.new i).applyAll [txSelf]).balance)
      ≠ ∑ i in ({"A"} : Finset String), (TxEndpoint.new i).balance := by
  have hab : ("A" : String) ≠ "B" := by decide
  have hba : ("B" : String) ≠ "A" := by decide
  constructor
  · rw [Finset.sum_pair hab, Finset.sum_pair hab]
    norm_num [TxEndpoint.applyAll, TxEndpoint.apply, TxEndpoint.process_transaction,
      TxEndpoint.new, txBig, hab, hba]
  · rw [Finset.sum_singleton, Finset.sum_singleton]
    norm_num [TxEndpoint.applyAll, TxEndpoint.apply, TxEndpoint.process_transaction,
      TxEndpoint.new, txSelf, hab, hba]

/-- C2 (amended): for every closed set of endpoint ledgers (each starting at
balance 1000.0) and every sequence of transactions whose from and to endpoints
all lie in the set, are distinct per transaction (from ≠ to), and for which no
apply hits the insufficient-balance rejection on any ledger, after every ledger
applies every transaction (each in any order — any permutation of the
sequence), the sum of all ledger balances equals the sum of the starting
balances. -/
theorem balance_conservation
    (s : Finset String) (txs : List Transaction)
    (deliveries : String → List Transaction)
    (hperm : ∀ i ∈ s, (deliveries i).Perm txs)
    (hclosed : ∀ tx ∈ txs, tx.«from» ∈ s ∧ tx.«to» ∈ s)
    (hne : ∀ tx ∈ txs, tx.«from» ≠ tx.«to»)
    (hok : ∀ i ∈ s, AllApplicable (TxEndpoint.new i) (deliveries i)) :
    ∑ i in s, ((TxEndpoint.new i).applyAll (deliveries i)).balance
      = ∑ i in s, (TxEndpoint.new i).balance := by
  have step : ∀ i ∈ s, ((TxEndpoint.new i).applyAll (deliveries i)).balance
      = (TxEndpoint.new i).balance + (txs.map (delta i)).sum := by
    intro i hi
    rw [applyAll_balance _ _ (hok i hi)]
    have hid : (TxEndpoint.new i).id = i := rfl
    rw [hid, List.Perm.sum_eq ((hperm i hi).map (delta i))]
  calc ∑ i in s, ((TxEndpoint.new i).applyAll (deliveries i)).balance
      = ∑ i in s, ((TxEndpoint.new i).balance + (txs.map (delta i)).sum) :=
        Finset.sum_congr rfl step
    _ = (∑ i in s, (TxEndpoint.new i).balance) + ∑ i in s, (txs.map (delta i)).sum :=
        Finset.sum_add_distrib
    _ = ∑ i in s, (TxEndpoint.new i).balance := by
        rw [sum_list_sum_swap]
        have hz : (txs.map fun tx => ∑ i in s, delta i tx).sum = 0 := by
          apply List.sum_eq_zero
          intro x hx
          obtain ⟨tx, htx, rfl⟩ := List.mem_map.mp hx
          exact sum_delta_zero s tx (hclosed tx htx).1 (hclosed tx htx).2 (hne tx htx)
        rw [hz, add_zero]

/-- Witness for `balance_conservation` at a concrete input: endpoints A and B,
one transfer of 150.0 from A to B delivered to both ledgers. -/
theorem balance_conservation_witness :
    ∑ i in ({"A", "B"} : Finset String), ((TxEndpoint.new i).applyAll [txB]).balance
      = ∑ i in ({"A", "B"} : Finset String), (TxEndpoint.new i).balance :=
  balance_conservation {"A", "B"} [txB] (fun _ => [txB])
    (fun _ _ => List.Perm.refl _)
    (by decide) (by decide) (by decide)

/-- C3: idempotent apply fails on the code — the ledger has no `applied_ids`
replay guard, so applying the same transaction (id "tx-0001", 150.0 to B)
twice credits twice: the replayed ledger holds 1300.0 instead of 1150.0, and
apply(apply(L, tx), tx) differs from apply(L, tx). -/
theorem double_apply_double_counts :
    (((TxEndpoint.new "B").apply txB).apply txB).balance = 1300
    ∧ ((TxEndpoint.new "B").apply txB).balance = 1150
    ∧ ((TxEndpoint.new "B").apply txB).apply txB ≠ (TxEndpoint.new "B").apply txB := by
  have hab : ("A" : String) ≠ "B" := by decide
  refine ⟨?_, ?_, ?_⟩ <;>
    norm_num [TxEndpoint.apply, TxEndpoint.process_transaction, TxEndpoint.new,
      txB, hab, TxEndpoint.mk.injEq]

/-- C4: apply never produces a negative balance.  If the ledger is the sender
and the balance does not cover the amount, the call returns the
insufficient-balance error and the ledger is wholly unchanged; in every case
the resulting balance stays non-negative (given non-negative inputs). -/
theorem no_negative_balance (ep : TxEndpoint) (tx : Transaction)
    (hb : 0 ≤ ep.balance) (ha : 0 ≤ tx.amount) :
    (tx.«from» = ep.id → ep.balance < tx.amount →
      ep.process_transaction tx = Except.error "Insufficient balance"
        ∧ ep.apply tx = ep)
    ∧ 0 ≤ (ep.apply tx).balance := by
  constructor
  · intro h1 h2
    constructor
    · unfold TxEndpoint.process_transaction
      rw [if_pos h1, if_pos h2]
    · unfold TxEndpoint.apply TxEndpoint.process_transaction
      rw [if_pos h1, if_pos h2]
  · unfold TxEndpoint.apply TxEndpoint.process_transaction
    split_ifs with h1 h2 h3
    · exact hb
    · show 0 ≤ ep.balance - tx.amount
      linarith [not_lt.mp h2]
    · show 0 ≤ ep.balance + tx.amount
      linarith
    · exact hb

/-- Witness for `no_negative_balance`: ledger A (balance 1000.0) sending the
150.0 transfer `txB`. -/
theorem no_negative_balance_witness :
    0 ≤ (TxEndpoint.new "A").balance ∧ 0 ≤ txB.amount
      ∧ 0 ≤ ((TxEndpoint.new "A").apply txB).balance :=
  ⟨by norm_num [TxEndpoint.new], by norm_num [txB],
   (no_negative_balance (TxEndpoint.new "A") txB
     (by norm_num [TxEndpoint.new]) (by norm_num [txB])).2⟩

/-- C5 counterexample: a self-transfer is not net-zero on the code.  Ledger A
(balance 1000.0) applies the self-transfer `txSelf` of 100.0 with both parties
equal to its own id and amount within balance; the debit branch runs and the
`else if` skips the credit, so the balance drops to 900.0 instead of staying
at 1000.0. -/
theorem self_transfer_not_net_zero :
    txSelf.«from» = (TxEndpoint.new "A").id
    ∧ txSelf.«to» = (TxEndpoint.new "A").id
    ∧ txSelf.amount ≤ (TxEndpoint.new "A").balance
    ∧ ((TxEndpoint.new "A").apply txSelf).balance = 900
    ∧ ((TxEndpoint.new "A").apply txSelf).balance ≠ (TxEndpoint.new "A").balance := by
  refine ⟨rfl, rfl, by norm_num [txSelf, TxEndpoint.new], ?_, ?_⟩ <;>
    norm_num [TxEndpoint.apply, TxEndpoint.process_transaction, TxEndpoint.new, txSelf]

/-- C5 (amended): for every ledger and every transaction with from and to both
equal to the ledger's own id and amount within the balance, apply runs only
the debit branch (the credit sits in an unreached `else if`), so the balance
after apply equals the balance before minus the amount. -/
theorem self_transfer_debits (ep : TxEndpoint) (tx : Transaction)
    (hf : tx.«from» = ep.id) (_ht : tx.«to» = ep.id) (hle : tx.amount ≤ ep.balance) :
    ep.process_transaction tx
      = Except.ok { ep with balance := ep.balance - tx.amount,
                            transaction_count := ep.transaction_count + 1 }
    ∧ (ep.apply tx).balance = ep.balance - tx.amount := by
  have hnl : ¬ ep.balance < tx.amount := not_lt.mpr hle
  constructor
  · unfold TxEndpoint.process_transaction
    rw [if_pos hf, if_neg hnl]
  · unfold TxEndpoint.apply TxEndpoint.process_transaction
    rw [if_pos hf, if_neg hnl]

/-- Witness for `self_transfer_debits`: ledger A and the 100.0 self-transfer;
the balance lands at 1000.0 - 100.0. -/
theorem self_transfer_debits_witness :
    txSelf.«from» = (TxEndpoint.new "A").id
    ∧ txSelf.«to» = (TxEndpoint.new "A").id
    ∧ txSelf.amount ≤ (TxEndpoint.new "A").balance
    ∧ ((TxEndpoint.new "A").apply txSelf).balance
        = (TxEndpoint.new "A").balance - txSelf.amount :=
  ⟨rfl, rfl, by norm_num [txSelf, TxEndpoint.new],
   (self_transfer_debits (TxEndpoint.new "A") txSelf rfl rfl
     (by norm_num [txSelf, TxEndpoint.new])).2⟩

/-- C8 counterexample: a transaction touching neither side is not a no-op on
the counter.  Ledger C applies the A-to-B transfer `txB`: the balance is
unchanged, but line 30's unconditional increment raises `transaction_count`
from 0 to 1, so the counter is not incremented exactly on debits/credits. -/
theorem irrelevant_tx_increments_count :
    txB.«from» ≠ (TxEndpoint.new "C").id
    ∧ txB.«to» ≠ (TxEndpoint.new "C").id
    ∧ ((TxEndpoint.new "C").apply txB).balance = (TxEndpoint.new "C").balance
    ∧ ((TxEndpoint.new "C").apply txB).transaction_count = 1
    ∧ ((TxEndpoint.new "C").apply txB).transaction_count
        ≠ (TxEndpoint.new "C").transaction_count := by
  have hac : ("A" : String) ≠ "C" := by decide
  have hbc : ("B" : String) ≠ "C" := by decide
  refine ⟨by decide, by decide, ?_, ?_, ?_⟩ <;>
    norm_num [TxEndpoint.apply, TxEndpoint.process_transaction, TxEndpoint.new,
      txB, hac, hbc]

/-- C8 (amended): for every ledger and transaction where neither from nor to
equals the ledger's id, apply succeeds and leaves the balance unchanged, but
`transaction_count` is still incremented — the increment happens on every
successful apply, not only on debits or credits, and there is no
`applied_ids` set in the code at all. -/
theorem irrelevant_tx_frame (ep : TxEndpoint) (tx : Transaction)
    (hf : tx.«from» ≠ ep.id) (ht : tx.«to» ≠ ep.id) :
    ep.process_transaction tx
      = Except.ok { ep with transaction_count := ep.transaction_count + 1 }
    ∧ (ep.apply tx).balance = ep.balance
    ∧ (ep.apply tx).transaction_count = ep.transaction_count + 1 := by
  have h : ep.process_transaction tx
      = Except.ok { ep with transaction_count := ep.transaction_count + 1 } := by
    unfold TxEndpoint.process_transaction
    rw [if_neg hf, if_neg ht]
  refine ⟨h, ?_, ?_⟩ <;> unfold TxEndpoint.apply <;> rw [h]

/-- Witness for `irrelevant_tx_frame`: ledger C watching the A-to-B transfer. -/
theorem irrelevant_tx_frame_witness :
    txB.«from» ≠ (TxEndpoint.new "C").id
    ∧ txB.«to» ≠ (TxEndpoint.new "C").id
    ∧ ((TxEndpoint.new "C").apply txB).balance = (TxEndpoint.new "C").balance
    ∧ ((TxEndpoint.new "C").apply txB).transaction_count
        = (TxEndpoint.new "C").transaction_count + 1 :=
  ⟨by decide, by decide,
   ((irrelevant_tx_frame (TxEndpoint.new "C") txB (by decide) (by decide)).2).1,
   ((irrelevant_tx_frame (TxEndpoint.new "C") txB (by decide) (by decide)).2).2⟩

/-- Signaling envelope of the WebSocket client (src/ws-tx-endpoint/src/lib.rs,
struct `SignalingMessage`). -/
structure SignalingMessage where
  message_type : String
  room_id : Option String := none
  peer_id : Option String := none
  target_peer : Option String := none
  transaction : Option Transaction := none
  peers : Option (List String) := none
deriving Repr, DecidableEq

/-- ICE candidate blob of the v2 client (src/tx-endpoint-v2/src/lib.rs,
struct `IceCandidate`); carried opaquely. -/
structure IceCandidate where
  candidate : String
  sdp_mid : Option String := none
  sdp_m_line_index : Option Nat := none
deriving Repr, DecidableEq

/-- Signaling envelope of the v2 WebRTC client (src/tx-endpoint-v2/src/lib.rs,
struct `SignalingMessage`): the WebSocket envelope plus the negotiation
fields. -/
structure SignalingMessageV2 where
  message_type : String
  room_id : Option String := none
  peer_id : Option String := none
  target_peer : Option String := none
  from_peer : Option String := none
  transaction : Option Transaction := none
  peers : Option (List String) := none
  offer : Option String := none
  answer : Option String := none
  ice_candidate : Option IceCandidate := none
deriving Repr, DecidableEq

/-- Insertion into the client's transaction log, modelling
`HashMap::insert` (replace any entry under the same key) on an association
list. -/
def insertTx (txs : List (String × Transaction)) (k : String) (v : Transaction) :
    List (String × Transaction) :=
  (k, v) :: txs.filter fun p => p.1 ≠ k

/-- The reactive state the WebSocket client holds in `app`
(src/ws-tx-endpoint/src/lib.rs): the ledger plus the four hooks that
`handle_signaling_message` receives.  The handler is given only
`connection_status`, `connected_peers`, `transactions` and `error_message`
(lib.rs lines 395-401) — the `tx_endpoint` ledger is not passed to it, so no
branch of the handler can modify it. -/
structure WsAppState where
  tx_endpoint : TxEndpoint
  transactions : List (String × Transaction)
  connected_peers : List String
  connection_status : String
  error_message : String
deriving Repr, DecidableEq

/-- Function `handle_signaling_message` of the WebSocket client
(src/ws-tx-endpoint/src/lib.rs lines 395-444), as a step on the app state. -/
def WsAppState.handle_signaling_message (st : WsAppState) (msg : SignalingMessage) :
    WsAppState :=
  match msg.message_type with
  | "welcome" => { st with connection_status := "Connected" }
  | "room-joined" =>
    let st := { st with connection_status := "Connected" }
    match msg.peers with
    | some peers => { st with connected_peers := peers }
    | none => st
  | "peer-joined" =>
    match msg.peer_id with
    | some peer_id =>
      { st with connected_peers :=
          if peer_id ∈ st.connected_peers then st.connected_peers
          else st.connected_peers ++ [peer_id] }
    | none => st
  | "peer-left" =>
    match msg.peer_id with
    | some peer_id =>
      { st with connected_peers := st.connected_peers.filter fun p => p ≠ peer_id }
    | none => st
  | "transaction-broadcast" =>
    match msg.transaction with
    | some tx => { st with transactions := insertTx st.transactions tx.id tx }
    | none => st
  | "error" => { st with error_message := "Connection error occurred" }
  | _ => st

/-- The reactive state the v2 WebRTC client holds in `app`
(src/tx-endpoint-v2/src/lib.rs); as in the WebSocket client, the handler is
not given the `tx_endpoint` ledger. -/
structure V2AppState where
  tx_endpoint : TxEndpoint
  transactions : List (String × Transaction)
  connected_peers : List String
  connection_status : String
  webrtc_status : String
  error_message : String
deriving Repr, DecidableEq

/-- Function `handle_signaling_message` of the v2 WebRTC client
(src/tx-endpoint-v2/src/lib.rs lines 446-507).  The emptiness re-check after
a disconnect is modelled on the updated peer list. -/
def V2AppState.handle_signaling_message (st : V2AppState) (msg : SignalingMessageV2) :
    V2AppState :=
  match msg.message_type with
  | "welcome" => { st with connection_status := "Connected" }
  | "room-joined" =>
    let st := { st with connection_status := "Connected" }
    match msg.peers with
    | some _ => { st with webrtc_status := "Establishing P2P..." }
    | none => st
  | "peer-joined" =>
    match msg.peer_id with
    | some peer_id =>
      { st with webrtc_status := "Connecting to " ++ peer_id ++ "..." }
    | none => st
  | "webrtc-connected" =>
    match msg.peer_id with
    | some peer_id =>
      { st with
          connected_peers :=
            if peer_id ∈ st.connected_peers then st.connected_peers
            else st.connected_peers ++ [peer_id],
          webrtc_status := "Connected" }
    | none => st
  | "webrtc-disconnected" =>
    match msg.peer_id with
    | some peer_id =>
      let peers := st.connected_peers.filter fun p => p ≠ peer_id
      { st with
          connected_peers := peers,
          webrtc_status := if peers.isEmpty then "Not Connected" else st.webrtc_status }
    | none => st
  | "transaction-p2p" =>
    match msg.transaction with
    | some tx => { st with transactions := insertTx st.transactions tx.id tx }
    | none => st
  | "error" => { st with error_message := "WebRTC connection error occurred" }
  | _ => st

/-- Receiving endpoint B's app state: fresh ledger (balance 1000.0), peer A
connected. -/
def stB : WsAppState :=
  { tx_endpoint := TxEndpoint.new "B", transactions := [],
    connected_peers := ["A"], connection_status := "Connected",
    error_message := "" }

/-- Receiving endpoint B's app state in the v2 client. -/
def stB2 : V2AppState :=
  { tx_endpoint := TxEndpoint.new "B", transactions := [],
    connected_peers := ["A"], connection_status := "Connected",
    webrtc_status := "Connected", error_message := "" }

/-- C1: a received transaction-broadcast (or transaction-p2p) is not routed
through the ledger's apply.  Both handlers only insert the transaction into
the display log; the ledger is not even passed to them.  Endpoint B with
balance 1000.0 receiving the 150.0 transfer addressed to B keeps balance
1000.0, although routing it through apply would have produced 1150.0. -/
theorem broadcast_not_routed_to_ledger :
    (stB.handle_signaling_message
        { message_type := "transaction-broadcast", transaction := some txB }).tx_endpoint
      = TxEndpoint.new "B"
    ∧ (stB2.handle_signaling_message
        { message_type := "transaction-p2p", transaction := some txB }).tx_endpoint
      = TxEndpoint.new "B"
    ∧ (TxEndpoint.new "B").balance = 1000
    ∧ ((TxEndpoint.new "B").apply txB).balance = 1150 := by
  have hab : ("A" : String) ≠ "B" := by decide
  refine ⟨rfl, rfl, rfl, ?_⟩
  norm_num [TxEndpoint.apply, TxEndpoint.process_transaction, TxEndpoint.new, txB, hab]

/-- C7: the tracked peer set has idempotent membership updates, in both
clients.  A peer-joined (ws) or webrtc-connected (v2) for a present peer
leaves the peer list unchanged and preserves freedom from duplicates; a
peer-left (ws) or webrtc-disconnected (v2) for an absent peer leaves the
peer list unchanged. -/
theorem peer_set_idempotent :
    (∀ (st : WsAppState) (p : String),
      (p ∈ st.connected_peers →
        (st.handle_signaling_message
          { message_type := "peer-joined", peer_id := some p }).connected_peers
        = st.connected_peers)
      ∧ (st.connected_peers.Nodup →
        ((st.handle_signaling_message
          { message_type := "peer-joined", peer_id := some p }).connected_peers).Nodup)
      ∧ (p ∉ st.connected_peers →
        (st.handle_signaling_message
          { message_type := "peer-left", peer_id := some p }).connected_peers
        = st.connected_peers))
    ∧ (∀ (st : V2AppState) (p : String),
      (p ∈ st.connected_peers →
        (st.handle_signaling_message
          { message_type := "webrtc-connected", peer_id := some p }).connected_peers
        = st.connected_peers)
      ∧ (st.connected_peers.Nodup →
        ((st.handle_signaling_message
          { message_type := "webrtc-connected", peer_id := some p }).connected_peers).Nodup)
      ∧ (p ∉ st.connected_peers →
        (st.handle_signaling_message
          { message_type := "webrtc-disconnected", peer_id := some p }).connected_peers
        = st.connected_peers)) := by
  constructor <;> intro st p <;>
    refine ⟨fun hmem => ?_, fun hnd => ?_, fun habs => ?_⟩ <;>
    simp only [WsAppState.handle_signaling_message, V2AppState.handle_signaling_message]
  · exact if_pos hmem
  · by_cases hmem : p ∈ st.connected_peers
    · rw [if_pos hmem]; exact hnd
    · rw [if_neg hmem]
      exact hnd.append (List.nodup_singleton p) (by simpa using hmem)
  · refine List.filter_eq_self.mpr fun a ha => ?_
    simp only [ne_eq, decide_eq_true_eq]
    intro h
    exact habs (h ▸ ha)
  · exact if_pos hmem
  · by_cases hmem : p ∈ st.connected_peers
    · rw [if_pos hmem]; exact hnd
    · rw [if_neg hmem]
      exact hnd.append (List.nodup_singleton p) (by simpa using hmem)
  · refine List.filter_eq_self.mpr fun a ha => ?_
    simp only [ne_eq, decide_eq_true_eq]
    intro h
    exact habs (h ▸ ha)

/-- Witness for `peer_set_idempotent`: peer A joining while already present,
and peer Z leaving while absent, on both clients' states. -/
theorem peer_set_idempotent_witness :
    ((stB.handle_signaling_message
        { message_type := "peer-joined", peer_id := some "A" }).connected_peers
      = stB.connected_peers)
    ∧ ((stB.handle_signaling_message
        { message_type := "peer-left", peer_id := some "Z" }).connected_peers
      = stB.connected_peers)
    ∧ ((stB2.handle_signaling_message
        { message_type := "webrtc-connected", peer_id := some "A" }).connected_peers
      = stB2.connected_peers)
    ∧ ((stB2.handle_signaling_message
        { message_type := "webrtc-disconnected", peer_id := some "Z" }).connected_peers
      = stB2.connected_peers) :=
  ⟨(peer_set_idempotent.1 stB "A").1 (by decide),
   ((peer_set_idempotent.1 stB "Z").2).2 (by decide),
   (peer_set_idempotent.2 stB2 "A").1 (by decide),
   ((peer_set_idempotent.2 stB2 "Z").2).2 (by decide)⟩

/-- Client connection state (src/ws-tx-endpoint/src/ws-connection.rs, struct
`WebSocketConnection`).  The raw socket handle carries no data the relayed
logic inspects, so it is modelled as `Option Unit`: only its presence
matters.  The stored message-handler closure plays no role in the send path
and is omitted. -/
structure WebSocketConnection where
  ws : Option Unit
  endpoint_id : String

/-- Constructor `WebSocketConnection::new`: no socket, empty endpoint id. -/
def WebSocketConnection.new : WebSocketConnection :=
  { ws := none, endpoint_id := "" }

/-- The envelope `send_transaction` builds for the wire
(ws-connection.rs lines 134-141): note `message_type` is the literal
"transaction". -/
def WebSocketConnection.transactionMessage (conn : WebSocketConnection)
    (tx : Transaction) : SignalingMessage :=
  { message_type := "transaction",
    room_id := some "transaction-room",
    peer_id := some conn.endpoint_id,
    target_peer := none,
    transaction := some tx,
    peers := none }

/-- Method `WebSocketConnection::send_transaction` (ws-connection.rs lines
132-150).  The result of the Rust `Result<(), JsValue>` is paired with the
list of envelopes written to the socket: when `self.ws` is present the
message is serialized and sent, otherwise the `if let` falls through and the
method returns `Ok(())` having sent nothing. -/
def WebSocketConnection.send_transaction (conn : WebSocketConnection)
    (tx : Transaction) : Except String (List SignalingMessage) :=
  match conn.ws with
  | some _ => Except.ok [conn.transactionMessage tx]
  | none => Except.ok []

/-- The JSON object the delayed join callback actually writes to the socket
(ws-connection.rs lines 90-101): a `serde_json::json!` literal with keys
"type", "roomId" and "peerId" — not the serde serialization of
`SignalingMessage` (the envelope built in the `onopen` handler at lines
68-75 is only logged, never sent).  All values are strings, so the object is
modelled as a key-value list. -/
def join_wire_object (endpoint_id : String) : List (String × String) :=
  [("type", "join"), ("roomId", "transaction-room"), ("peerId", endpoint_id)]

/-- The field names `derive(Serialize)` emits for `SignalingMessage`
(lib.rs lines 24-32): serde uses the Rust field names as JSON keys. -/
def signalingMessageKeys : List String :=
  ["message_type", "room_id", "peer_id", "target_peer", "transaction", "peers"]

/-- A connection that has completed `connect` as endpoint A: socket present. -/
def connA : WebSocketConnection := { ws := some (), endpoint_id := "A" }

/-- C9 counterexample: the wire format deviates from the claim on both
counts.  The join object actually sent carries keys "type", "roomId",
"peerId" — there is no "message_type" field at all — and the outgoing
transaction envelope carries message_type "transaction", not
"transaction-broadcast". -/
theorem wire_format_fails_as_stated :
    (join_wire_object "endpoint-1").map Prod.fst = ["type", "roomId", "peerId"]
    ∧ "message_type" ∉ (join_wire_object "endpoint-1").map Prod.fst
    ∧ "room_id" ∉ (join_wire_object "endpoint-1").map Prod.fst
    ∧ connA.send_transaction txB = Except.ok [connA.transactionMessage txB]
    ∧ (connA.transactionMessage txB).message_type = "transaction"
    ∧ (connA.transactionMessage txB).message_type ≠ "transaction-broadcast" := by
  refine ⟨rfl, by decide, by decide, rfl, rfl, by decide⟩

/-- C9 (amended): an outgoing transaction is published as a
`SignalingMessage` envelope (serde keys `message_type`, `room_id`, `peer_id`,
`target_peer`, `transaction`, `peers`) whose message_type is "transaction",
carrying the transaction and the room and sender ids; the join message
actually sent after transport establishment is a separate JSON object with
keys "type", "roomId" and "peerId" (values "join", "transaction-room" and
the endpoint id), not a `SignalingMessage` envelope. -/
theorem wire_format_amended (conn : WebSocketConnection) (tx : Transaction)
    (h : Unit) (hws : conn.ws = some h) :
    conn.send_transaction tx
      = Except.ok [{ message_type := "transaction",
                     room_id := some "transaction-room",
                     peer_id := some conn.endpoint_id,
                     target_peer := none,
                     transaction := some tx,
                     peers := none }]
    ∧ ∀ eid, join_wire_object eid
        = [("type", "join"), ("roomId", "transaction-room"), ("peerId", eid)] := by
  constructor
  · unfold WebSocketConnection.send_transaction
    rw [hws]
    rfl
  · intro eid
    rfl

/-- Witness for `wire_format_amended` at the concrete connected endpoint A. -/
theorem wire_format_amended_witness :
    connA.ws = some ()
    ∧ connA.send_transaction txB
      = Except.ok [{ message_type := "transaction",
                     room_id := some "transaction-room",
                     peer_id := some connA.endpoint_id,
                     target_peer := none,
                     transaction := some txB,
                     peers := none }] :=
  ⟨rfl, (wire_format_amended connA txB () rfl).1⟩

/-- C10: `send_transaction` on a connection with no WebSocket present returns
success and sends nothing: the `if let Some(ws)` falls through and the method
ends in `Ok(())`, silently dropping the transaction. -/
theorem send_transaction_disconnected_ok (conn : WebSocketConnection)
    (tx : Transaction) (hws : conn.ws = none) :
    conn.send_transaction tx = Except.ok [] := by
  unfold WebSocketConnection.send_transaction
  rw [hws]

/-- Witness for `send_transaction_disconnected_ok`: a freshly constructed,
never-connected `WebSocketConnection`. -/
theorem send_transaction_disconnected_ok_witness :
    WebSocketConnection.new.ws = none
    ∧ WebSocketConnection.new.send_transaction txB = Except.ok [] :=
  ⟨rfl, send_transaction_disconnected_ok WebSocketConnection.new txB rfl⟩

/-- The row projection both statistics folds read from the durable log
(src/api-gateway/src/main.rs: `SELECT from_endpoint, to_endpoint, amount`). -/
structure Record where
  from_endpoint : String
  to_endpoint : String
  amount : ℚ
deriving Repr, DecidableEq

/-- Per-endpoint aggregates (src/api-gateway/src/main.rs, struct
`EndpointStats`); the `i64` counter is modelled as `Int`. -/
structure EndpointStats where
  endpoint_id : String
  transaction_count : Int
  total_sent : ℚ
  total_received : ℚ
  balance_change : ℚ
deriving Repr, DecidableEq

/-- The zeroed entry `or_insert` supplies for an endpoint id in `get_stats`,
which is also the accumulator `get_endpoint_stats` starts from. -/
def EndpointStats.init (i : String) : EndpointStats :=
  { endpoint_id := i, transaction_count := 0, total_sent := 0,
    total_received := 0, balance_change := 0 }

/-- The endpoint-stats map of `get_stats`, as a total function: an absent key
reads as its `or_insert` default, exactly the `HashMap::entry` behaviour. -/
def mapInsert (m : String → EndpointStats) (k : String) (v : EndpointStats) :
    String → EndpointStats :=
  fun j => if j = k then v else m j

/-- One record's contribution in the `get_stats` aggregation loop
(src/api-gateway/src/main.rs lines 325-354): the sender entry gets
`transaction_count + 1`, `total_sent + amount`, `balance_change - amount`;
then the receiver entry gets `total_received + amount`,
`balance_change + amount` — and no count increment. -/
def global_stats_step (m : String → EndpointStats) (r : Record) :
    String → EndpointStats :=
  let sender := m r.from_endpoint
  let m1 := mapInsert m r.from_endpoint
    { sender with transaction_count := sender.transaction_count + 1,
                  total_sent := sender.total_sent + r.amount,
                  balance_change := sender.balance_change - r.amount }
  let receiver := m1 r.to_endpoint
  mapInsert m1 r.to_endpoint
    { receiver with total_received := receiver.total_received + r.amount,
                    balance_change := receiver.balance_change + r.amount }

/-- The per-endpoint aggregation of `get_stats` over the whole log. -/
def global_endpoint_stats (records : List Record) : String → EndpointStats :=
  records.foldl global_stats_step fun i => EndpointStats.init i

/-- One record's contribution in the `get_endpoint_stats` loop
(src/api-gateway/src/main.rs lines 388-406): `transaction_count` is
incremented for every row; sent/received sides are added when the respective
endpoint matches. -/
def endpoint_stats_step (endpoint_id : String) (stats : EndpointStats)
    (r : Record) : EndpointStats :=
  let stats := { stats with transaction_count := stats.transaction_count + 1 }
  let stats :=
    if r.from_endpoint = endpoint_id then
      { stats with total_sent := stats.total_sent + r.amount,
                   balance_change := stats.balance_change - r.amount }
    else stats
  if r.to_endpoint = endpoint_id then
    { stats with total_received := stats.total_received + r.amount,
                 balance_change := stats.balance_change + r.amount }
  else stats

/-- The SQL row filter of `get_endpoint_stats`:
`WHERE from_endpoint = ? OR to_endpoint = ?`. -/
def touches (endpoint_id : String) (r : Record) : Bool :=
  r.from_endpoint == endpoint_id || r.to_endpoint == endpoint_id

/-- The `get_endpoint_stats` aggregation: the fold restricted to the rows
touching the endpoint. -/
def endpoint_stats (endpoint_id : String) (records : List Record) :
    EndpointStats :=
  (records.filter (touches endpoint_id)).foldl
    (endpoint_stats_step endpoint_id) (EndpointStats.init endpoint_id)

theorem global_stats_step_count (m : String → EndpointStats) (r : Record)
    (i : String) :
    (global_stats_step m r i).transaction_count
      = (m i).transaction_count + (if i = r.from_endpoint then 1 else 0) := by
  simp only [global_stats_step, mapInsert]
  by_cases h1 : i = r.to_endpoint
  · rw [if_pos h1]
    by_cases h2 : i = r.from_endpoint
    · rw [if_pos (h1.symm.trans h2), if_pos h2]
      simp [h2]
    · rw [if_neg fun hh => h2 (h1.trans hh), if_neg h2, ← h1]
      simp
  · rw [if_neg h1]
    by_cases h2 : i = r.from_endpoint
    · rw [if_pos h2, if_pos h2]
      simp [h2]
    · rw [if_neg h2, if_neg h2]
      simp

theorem global_stats_fold_count (records : List Record)
    (m : String → EndpointStats) (i : String) :
    ((records.foldl global_stats_step m) i).transaction_count
      = (m i).transaction_count
        + (records.countP fun r => r.from_endpoint == i) := by
  induction records generalizing m with
  | nil => simp
  | cons r rest ih =>
    rw [List.foldl_cons, ih (global_stats_step m r), global_stats_step_count,
      List.countP_cons]
    by_cases h : r.from_endpoint = i
    · simp only [h, if_pos rfl, beq_self_eq_true, if_true]
      push_cast
      omega
    · have h' : ¬ i = r.from_endpoint := fun hh => h hh.symm
      simp [h, h']

theorem endpoint_stats_step_count (eid : String) (s : EndpointStats)
    (r : Record) :
    (endpoint_stats_step eid s r).transaction_count = s.transaction_count + 1 := by
  simp only [endpoint_stats_step]
  split_ifs <;> rfl

theorem endpoint_stats_fold_count (eid : String) (l : List Record)
    (s : EndpointStats) :
    ((l.foldl (endpoint_stats_step eid) s)).transaction_count
      = s.transaction_count + l.length := by
  induction l generalizing s with
  | nil => simp
  | cons r rest ih =>
    rw [List.foldl_cons, ih, endpoint_stats_step_count, List.length_cons]
    push_cast
    omega

/-- C6: in `get_stats`, every record increments the transaction count of
exactly one endpoint, the sender; in `get_endpoint_stats`, every row touching
the endpoint increments its count, whether it sends or receives.  Hence over
the same log an endpoint that only ever receives reports count 0 in the
global per-endpoint aggregation but a positive count in its own endpoint
stats. -/
theorem stats_count_asymmetry :
    (∀ (m : String → EndpointStats) (r : Record) (i : String),
      (global_stats_step m r i).transaction_count
        = (m i).transaction_count + (if i = r.from_endpoint then 1 else 0))
    ∧ (∀ (eid : String) (s : EndpointStats) (r : Record),
      (endpoint_stats_step eid s r).transaction_count = s.transaction_count + 1)
    ∧ (∀ (records : List Record) (eid : String),
      (∀ r ∈ records, r.from_endpoint ≠ eid) →
      (∃ r ∈ records, r.to_endpoint = eid) →
      (global_endpoint_stats records eid).transaction_count = 0
        ∧ 0 < (endpoint_stats eid records).transaction_count) := by
  refine ⟨global_stats_step_count, endpoint_stats_step_count, ?_⟩
  intro records eid hnosend ⟨r0, hr0, hr0to⟩
  constructor
  · rw [global_endpoint_stats, global_stats_fold_count]
    have hz : (records.countP fun r => r.from_endpoint == eid) = 0 := by
      rw [List.countP_eq_zero]
      intro r hr
      simpa using hnosend r hr
    rw [hz]
    rfl
  · rw [endpoint_stats, endpoint_stats_fold_count]
    have hmem : r0 ∈ records.filter (touches eid) := by
      rw [List.mem_filter]
      exact ⟨hr0, by simp [touches, hr0to]⟩
    have hpos : 0 < (records.filter (touches eid)).length :=
      List.length_pos.mpr fun h => by simp [h] at hmem
    simp only [EndpointStats.init]
    omega

/-- A concrete log row: A sent B 100.0. -/
def recAB : Record := { from_endpoint := "A", to_endpoint := "B", amount := 100 }

/-- Witness for `stats_count_asymmetry`: over the one-row log recording only
the transfer A to B, the pure receiver B counts 0 in the global aggregation
and positively in its own endpoint stats. -/
theorem stats_count_asymmetry_witness :
    (global_endpoint_stats [recAB] "B").transaction_count = 0
      ∧ 0 < (endpoint_stats "B" [recAB]).transaction_count :=
  (stats_count_asymmetry.2.2 [recAB] "B"
    (by decide) ⟨recAB, by decide, by decide⟩)
